import Mathlib

/-!
Shallow embedding of the `rust-png-cryptex` codec:
`src/chunk_type.rs` (ChunkType) and `src/chunk.rs` (Chunk).

Machine integers (`u8`, `u32`) are modelled as `Nat`, with `% 2^32`
where the Rust code truncates.  A Rust computation that can return
`Ok`, return `Err`, or abort with an index-out-of-bounds / `unwrap`
failure is modelled by `RResult`: the `crash` constructor stands for
the abort.
-/

set_option maxRecDepth 100000

namespace PngCryptex

/-- Models the outcome of a fallible Rust computation: `ok`, `err`
(an explicit `Err` value, carrying the source's message string), or
`crash` (the program aborts: out-of-bounds indexing or a failed
`unwrap`). -/
inductive RResult (α : Type) where
  | ok : α → RResult α
  | err : String → RResult α
  | crash : RResult α
deriving DecidableEq, Repr

/-- The 4 raw bytes of a chunk type code (`[u8; 4]` in the source). -/
structure Bytes4 where
  b0 : Nat
  b1 : Nat
  b2 : Nat
  b3 : Nat
deriving DecidableEq, Repr

/-- The bytes as a list, in order (used where the source concatenates
`chunk_type.bytes()` with the payload). -/
def Bytes4.toList (b : Bytes4) : List Nat := [b.b0, b.b1, b.b2, b.b3]

/-- `fifth_bit_to_bool` from `src/chunk_type.rs`: `number & 32 != 0`. -/
def fifth_bit_to_bool (number : Nat) : Bool := number &&& 32 != 0

/-- `ChunkType` from `src/chunk_type.rs`: four cached flag bits plus
the raw bytes. -/
structure ChunkType where
  ancillary_bit : Bool
  private_bit : Bool
  reserved_bit : Bool
  safe_to_copy_bit : Bool
  bytes : Bytes4
deriving DecidableEq, Repr

/-- `impl TryFrom<[u8; 4]> for ChunkType`: always succeeds, deriving
each flag from bit 5 of the byte at its index. -/
def ChunkType.try_from (bytes : Bytes4) : RResult ChunkType :=
  .ok { ancillary_bit := fifth_bit_to_bool bytes.b0
      , private_bit := fifth_bit_to_bool bytes.b1
      , reserved_bit := fifth_bit_to_bool bytes.b2
      , safe_to_copy_bit := fifth_bit_to_bool bytes.b3
      , bytes }

/-- `ChunkType::bytes`. -/
def ChunkType.bytes_fn (ct : ChunkType) : Bytes4 := ct.bytes

/-- `ChunkType::is_valid`. -/
def ChunkType.is_valid (ct : ChunkType) : Bool := !ct.reserved_bit

/-- `ChunkType::is_critical`. -/
def ChunkType.is_critical (ct : ChunkType) : Bool := !ct.ancillary_bit

/-- `ChunkType::is_public`. -/
def ChunkType.is_public (ct : ChunkType) : Bool := !ct.private_bit

/-- `ChunkType::is_reserved_bit_valid`. -/
def ChunkType.is_reserved_bit_valid (ct : ChunkType) : Bool := !ct.reserved_bit

/-- `ChunkType::is_safe_to_copy` (true when the bit IS set). -/
def ChunkType.is_safe_to_copy (ct : ChunkType) : Bool := ct.safe_to_copy_bit

/-- The character-class test in `ChunkType::from_str`:
`matches!(char, 'a'..='z') || matches!(char, 'A'..='Z')`. -/
def isAsciiLetterChar (c : Char) : Bool :=
  (decide ('a' ≤ c) && decide (c ≤ 'z')) || (decide ('A' ≤ c) && decide (c ≤ 'Z'))

/-- `bytes[index] = v` on a `[u8; 4]`: `none` when the index is out of
bounds (the Rust assignment panics there). -/
def Bytes4.setAt (b : Bytes4) (i : Nat) (v : Nat) : Option Bytes4 :=
  match i with
  | 0 => some { b with b0 := v }
  | 1 => some { b with b1 := v }
  | 2 => some { b with b2 := v }
  | 3 => some { b with b3 := v }
  | _ => none

/-- The loop of `ChunkType::from_str`: for each character (with its
index) check the character class, then write its one UTF-8 byte into
`bytes[index]`.  An ASCII letter encodes to the single byte equal to
its code point. -/
def from_str_loop (bytes : Bytes4) (i : Nat) : List Char → RResult Bytes4
  | [] => .ok bytes
  | c :: cs =>
    if isAsciiLetterChar c then
      match bytes.setAt i c.toNat with
      | some b => from_str_loop b (i + 1) cs
      | none => .crash
    else
      .err "String input should only contain characters A-Z or a-z"

/-- `impl FromStr for ChunkType` from `src/chunk_type.rs`: runs the
indexed loop over the characters starting from `bytes = [0; 4]`, then
builds the struct with the flags derived from the resulting bytes. -/
def ChunkType.from_str (val : List Char) : RResult ChunkType :=
  match from_str_loop ⟨0, 0, 0, 0⟩ 0 val with
  | .ok bytes =>
      .ok { ancillary_bit := fifth_bit_to_bool bytes.b0
          , private_bit := fifth_bit_to_bool bytes.b1
          , reserved_bit := fifth_bit_to_bool bytes.b2
          , safe_to_copy_bit := fifth_bit_to_bool bytes.b3
          , bytes }
  | .err e => .err e
  | .crash => .crash

/-- Is `b` a UTF-8 continuation byte (`0x80..=0xBF`)? -/
def utf8Cont (b : Nat) : Bool := 0x80 ≤ b && b ≤ 0xBF

/-- UTF-8 decoding of a byte list, as performed by Rust's
`str::from_utf8`: `none` exactly when the bytes are not valid UTF-8
(rejecting overlong forms, surrogates and code points above
U+10FFFF). -/
def utf8Decode : List Nat → Option (List Char)
  | [] => some []
  | b :: rest =>
    if b ≤ 0x7F then
      (utf8Decode rest).map (fun cs => Char.ofNat b :: cs)
    else if 0xC2 ≤ b && b ≤ 0xDF then
      match rest with
      | c1 :: r =>
        if utf8Cont c1 then
          (utf8Decode r).map (fun cs =>
            Char.ofNat ((b - 0xC0) * 64 + (c1 - 0x80)) :: cs)
        else none
      | [] => none
    else if 0xE0 ≤ b && b ≤ 0xEF then
      match rest with
      | c1 :: c2 :: r =>
        if (if b = 0xE0 then 0xA0 else 0x80) ≤ c1 &&
           c1 ≤ (if b = 0xED then 0x9F else 0xBF) && utf8Cont c2 then
          (utf8Decode r).map (fun cs =>
            Char.ofNat ((b - 0xE0) * 4096 + (c1 - 0x80) * 64 + (c2 - 0x80)) :: cs)
        else none
      | _ => none
    else if 0xF0 ≤ b && b ≤ 0xF4 then
      match rest with
      | c1 :: c2 :: c3 :: r =>
        if (if b = 0xF0 then 0x90 else 0x80) ≤ c1 &&
           c1 ≤ (if b = 0xF4 then 0x8F else 0xBF) && utf8Cont c2 && utf8Cont c3 then
          (utf8Decode r).map (fun cs =>
            Char.ofNat ((b - 0xF0) * 262144 + (c1 - 0x80) * 4096 +
              (c2 - 0x80) * 64 + (c3 - 0x80)) :: cs)
        else none
      | _ => none
    else none

/-- `impl Display for ChunkType`:
`std::str::from_utf8(&self.bytes).unwrap()` — renders the 4 raw bytes
as text, aborting (`crash`) when they are not valid UTF-8. -/
def ChunkType.render (ct : ChunkType) : RResult (List Char) :=
  match utf8Decode ct.bytes.toList with
  | some cs => .ok cs
  | none => .crash

/-- One bit step of CRC-32/ISO-HDLC (reflected polynomial
`0xEDB88320`). -/
def crc32Step (c : Nat) : Nat :=
  if c % 2 = 1 then (c / 2) ^^^ 0xEDB88320 else c / 2

/-- Fold one byte into the CRC state. -/
def crc32Byte (c b : Nat) : Nat := crc32Step^[8] (c ^^^ b)

/-- `crc::Crc::<u32>::new(&crc::CRC_32_ISO_HDLC).checksum(data)`: the
standard CRC-32 (zlib/PNG variant), init `0xFFFFFFFF`, reflected,
xor-out `0xFFFFFFFF`. -/
def crc32 (data : List Nat) : Nat :=
  (data.foldl crc32Byte 0xFFFFFFFF) ^^^ 0xFFFFFFFF

/-- The `ChunkType` value that `ChunkType::try_from(bytes)` wraps in
`Ok` (it never fails): flags from bit 5 of each byte, bytes stored
verbatim. -/
def type_code_of (b : Bytes4) : ChunkType :=
  { ancillary_bit := fifth_bit_to_bool b.b0
  , private_bit := fifth_bit_to_bool b.b1
  , reserved_bit := fifth_bit_to_bool b.b2
  , safe_to_copy_bit := fifth_bit_to_bool b.b3
  , bytes := b }

/-- `u32::from_be_bytes([b0, b1, b2, b3])`. -/
def u32_from_be (b0 b1 b2 b3 : Nat) : Nat :=
  b0 * 2 ^ 24 + b1 * 2 ^ 16 + b2 * 2 ^ 8 + b3

/-- `Chunk` from `src/chunk.rs`. -/
structure Chunk where
  length : Nat
  chunk_type : ChunkType
  chunk_data : List Nat
  crc : Nat
deriving DecidableEq, Repr

/-- The `data_length` computed by the loop in `Chunk::try_from`:
`for entry in 0..4 { data_length += value[entry] as u32 * base.pow(3 - entry) }`
with `base: u32 = 2` — i.e. weights 8, 4, 2, 1 (NOT base 256). -/
def declared_len (v : List Nat) : Nat :=
  v.getD 0 0 * 2 ^ 3 + v.getD 1 0 * 2 ^ 2 + v.getD 2 0 * 2 ^ 1 + v.getD 3 0 * 2 ^ 0

/-- The 4 type-code bytes `value[4..8]` copied by `copy_from_slice`. -/
def type_field (v : List Nat) : Bytes4 :=
  ⟨v.getD 4 0, v.getD 5 0, v.getD 6 0, v.getD 7 0⟩

/-- The payload slice `value[8 .. 8 + data_length]`. -/
def payload_field (v : List Nat) : List Nat :=
  (v.drop 8).take (declared_len v)

/-- The stored checksum: `u32::from_be_bytes` of
`value[data_length + 8 ..][0..4]`. -/
def stored_crc (v : List Nat) : Nat :=
  u32_from_be ((v.drop (8 + declared_len v)).getD 0 0)
    ((v.drop (8 + declared_len v)).getD 1 0)
    ((v.drop (8 + declared_len v)).getD 2 0)
    ((v.drop (8 + declared_len v)).getD 3 0)

/-- `impl TryFrom<&[u8]> for Chunk` from `src/chunk.rs`.  Each slice /
index operation of the source carries an explicit bounds guard here
whose failure is `crash` (the Rust code panics there):
`value[entry]` for `entry in 0..4` and `value[4..8]` need 8 bytes;
`value[8 .. 8 + data_length]` needs `8 + data_length` bytes;
`value[data_length + 8 ..][0..4]` needs `12 + data_length` bytes.
`ChunkType::try_from(...).unwrap()` never fails. -/
def Chunk.try_from (value : List Nat) : RResult Chunk :=
  if value.length = 0 then .err "No data found"
  else if value.length < 8 then .crash
  else if value.length < 8 + declared_len value then .crash
  else if value.length < 12 + declared_len value then .crash
  else if crc32 ((type_field value).toList ++ payload_field value) ≠ stored_crc value then
    .err "CRC comparison failed."
  else
    .ok { length := declared_len value
        , chunk_type := type_code_of (type_field value)
        , chunk_data := payload_field value
        , crc := stored_crc value }

/-- `Chunk::new`: `length = data.len() as u32` (truncating),
checksum over `chunk_type.bytes() ++ data`. -/
def Chunk.new (chunk_type : ChunkType) (data : List Nat) : Chunk :=
  { length := data.length % 2 ^ 32
  , chunk_type
  , chunk_data := data
  , crc := crc32 (chunk_type.bytes.toList ++ data) }

/-- `Chunk::length`. -/
def Chunk.length_fn (c : Chunk) : Nat := c.length

/-- `Chunk::chunk_type`. -/
def Chunk.chunk_type_fn (c : Chunk) : ChunkType := c.chunk_type

/-- `Chunk::data`. -/
def Chunk.data (c : Chunk) : List Nat := c.chunk_data

/-- `Chunk::crc`. -/
def Chunk.crc_fn (c : Chunk) : Nat := c.crc

/-- `Chunk::data_as_string`: `String::from_utf8(..)`, a `Result`
(`none` models the `FromUtf8Error` case — returned, not a panic). -/
def Chunk.data_as_string (c : Chunk) : Option (List Char) :=
  utf8Decode c.chunk_data

/-- `Chunk::as_bytes`: `self.chunk_data.to_vec()` — it returns ONLY
the payload bytes, not the length/type/checksum framing. -/
def Chunk.as_bytes (c : Chunk) : List Nat := c.chunk_data

/-- The serialization the spec describes (`serialize()`): length as
big-endian 4 bytes, then the 4 type bytes, then the payload, then the
checksum as big-endian 4 bytes.  Stated from the spec for comparison
with `Chunk.as_bytes`; no such function exists in the source. -/
def spec_serialize (c : Chunk) : List Nat :=
  [c.length / 2 ^ 24 % 256, c.length / 2 ^ 16 % 256, c.length / 2 ^ 8 % 256, c.length % 256]
    ++ c.chunk_type.bytes.toList ++ c.chunk_data
    ++ [c.crc / 2 ^ 24 % 256, c.crc / 2 ^ 16 % 256, c.crc / 2 ^ 8 % 256, c.crc % 256]

/-- The `"RuSt"` chunk type code (bytes 0x52, 0x75, 0x53, 0x74). -/
def rust_type : ChunkType := type_code_of ⟨82, 117, 83, 116⟩

/-- The bytes of the ASCII text
`"This is where your secret message will be!"` (42 bytes). -/
def secret_message : List Nat :=
  [84, 104, 105, 115, 32, 105, 115, 32, 119, 104, 101, 114, 101, 32,
   121, 111, 117, 114, 32, 115, 101, 99, 114, 101, 116, 32, 109, 101,
   115, 115, 97, 103, 101, 32, 119, 105, 108, 108, 32, 98, 101, 33]

/-- The known-vector buffer: length 42 big-endian, type `"RuSt"`,
the 42-byte message, checksum 2882656334 big-endian. -/
def vector_buffer : List Nat :=
  [0, 0, 0, 42] ++ [82, 117, 83, 116] ++ secret_message ++ [171, 209, 216, 78]

/-- The known-vector buffer with checksum 2882656333 instead. -/
def vector_buffer_bad : List Nat :=
  [0, 0, 0, 42] ++ [82, 117, 83, 116] ++ secret_message ++ [171, 209, 216, 77]

end PngCryptex

namespace PngCryptex

/-- `fifth_bit_to_bool` tests exactly bit 5: `n & 32 != 0` is
`Nat.testBit n 5`. -/
theorem fifth_bit_to_bool_eq_testBit (n : Nat) :
    fifth_bit_to_bool n = n.testBit 5 := by
  have h := Nat.and_two_pow n 5
  unfold fifth_bit_to_bool
  cases hb : n.testBit 5 <;>
    simp [hb, show (32 : Nat) = 2 ^ 5 from rfl] at h ⊢ <;> simp [h]

/-- C1.  The round-trip property fails on the code: `as_bytes`
(the only serialization in the source) returns just the payload, so
serializing the record built from the `"RuSt"` type and the empty
payload yields the empty byte sequence, and parsing it fails with
the empty-input error instead of succeeding.  The spec's wire-format
serialization (`spec_serialize`) would round-trip at this input. -/
theorem c1_roundtrip_broken :
    (Chunk.new rust_type []).as_bytes = [] ∧
    Chunk.try_from ((Chunk.new rust_type []).as_bytes) = .err "No data found" ∧
    Chunk.try_from (spec_serialize (Chunk.new rust_type [])) =
      .ok (Chunk.new rust_type []) := by decide

/-- C2.  The declared payload length is NOT decoded as a big-endian
u32: for the buffer whose first four bytes are `[0, 0, 1, 0]`
(big-endian 256), the parser decodes length 2 (weights 8,4,2,1) and
accepts a 14-byte buffer with a 2-byte payload. -/
theorem c2_length_not_big_endian :
    declared_len [0, 0, 1, 0] = 2 ∧
    u32_from_be 0 0 1 0 = 256 ∧
    Chunk.try_from ([0, 0, 1, 0] ++ [82, 117, 83, 116] ++ [0, 0] ++ [75, 246, 7, 32]) =
      .ok { length := 2, chunk_type := rust_type, chunk_data := [0, 0], crc := 1274414880 } ∧
    (2 : Nat) ≠ 256 := by decide

/-- C3.  An 11-byte buffer does not produce a `TruncatedInput` error
value — the parser aborts with an out-of-bounds access (`crash`); no
truncation error exists anywhere in `Chunk::try_from`. -/
theorem c3_truncation_panics :
    Chunk.try_from (List.replicate 11 0) = .crash ∧
    Chunk.try_from [1] = .crash := by decide

/-- C7.  Type-code text input whose length is not 4 is not rejected
with an `InvalidLength` error: `from_str "Rus"` SUCCEEDS (the fourth
byte stays 0), and `from_str "Ruster"` aborts with an out-of-bounds
array write instead of returning an error. -/
theorem c7_from_str_no_length_check :
    ChunkType.from_str ['R', 'u', 's'] = .ok (type_code_of ⟨82, 117, 115, 0⟩) ∧
    ChunkType.from_str ['R', 'u', 's', 't', 'e', 'r'] = .crash := by decide

/-- C8.  Flag semantics: `is_critical`, `is_public`, `is_valid` are
true iff bit 5 of bytes 0, 1, 2 respectively is clear, while
`is_safe_to_copy` is true iff bit 5 of byte 3 is SET; instantiated at
`"RuSt"` (0x52, 0x75, 0x53, 0x74) this gives true, false, true,
true. -/
theorem c8_flag_semantics (b : Bytes4) :
    ((type_code_of b).is_critical = !b.b0.testBit 5) ∧
    ((type_code_of b).is_public = !b.b1.testBit 5) ∧
    ((type_code_of b).is_valid = !b.b2.testBit 5) ∧
    ((type_code_of b).is_safe_to_copy = b.b3.testBit 5) ∧
    (rust_type.is_critical = true ∧ rust_type.is_public = false ∧
     rust_type.is_valid = true ∧ rust_type.is_safe_to_copy = true) := by
  refine ⟨?_, ?_, ?_, ?_, by decide⟩ <;>
    simp [type_code_of, ChunkType.is_critical, ChunkType.is_public,
      ChunkType.is_valid, ChunkType.is_safe_to_copy, fifth_bit_to_bool_eq_testBit]

/-- C9.  Rendering a chunk type whose bytes are not valid UTF-8 does
not return a recoverable error: `ChunkType::try_from` accepts the
bytes `[255, 255, 255, 255]`, and the `Display` implementation
(`from_utf8(..).unwrap()`) aborts on them. -/
theorem c9_render_aborts :
    ChunkType.try_from ⟨255, 255, 255, 255⟩ = .ok (type_code_of ⟨255, 255, 255, 255⟩) ∧
    (type_code_of ⟨255, 255, 255, 255⟩).render = .crash := by decide

/-- C6 counterexample.  The buffer formed from length 42 (big-endian),
the type bytes `"RuSt"`, the 42-byte message, and a big-endian
checksum has 4 + 4 + 42 + 4 = 54 bytes, not 50: no 50-byte buffer is
formed from those fields. -/
theorem c6_counterexample :
    vector_buffer.length = 54 ∧ ¬vector_buffer.length = 50 := by decide

/-- C6 (amended: the buffer has 54 bytes, not 50).  Parsing the
known-vector buffer succeeds with length 42, type rendering as
`"RuSt"`, payload equal to the message, and checksum 2882656334;
the same buffer with checksum 2882656333 fails the CRC comparison. -/
theorem c6_known_vector :
    Chunk.try_from vector_buffer =
      .ok { length := 42, chunk_type := rust_type
          , chunk_data := secret_message, crc := 2882656334 } ∧
    rust_type.render = .ok ['R', 'u', 'S', 't'] ∧
    Chunk.try_from vector_buffer_bad = .err "CRC comparison failed." := by decide

/-- C4.  For every buffer long enough that parsing performs no
out-of-bounds access (`12 + declared_len v ≤ v.length`, which also
forces it non-empty), parsing fails with the CRC-mismatch error
exactly when the checksum recomputed over the type bytes concatenated
with the extracted payload differs from the stored big-endian
checksum; otherwise it returns the record with the declared length,
the decoded type code, the extracted payload, and the stored
checksum. -/
theorem c4_crc_verification (v : List Nat)
    (h : 12 + declared_len v ≤ v.length) :
    (Chunk.try_from v = .err "CRC comparison failed." ↔
      crc32 ((type_field v).toList ++ payload_field v) ≠ stored_crc v) ∧
    (crc32 ((type_field v).toList ++ payload_field v) = stored_crc v →
      Chunk.try_from v =
        .ok { length := declared_len v
            , chunk_type := type_code_of (type_field v)
            , chunk_data := payload_field v
            , crc := stored_crc v }) := by
  have h0 : ¬v.length = 0 := by omega
  have h8 : ¬v.length < 8 := by omega
  have hA : ¬v.length < 8 + declared_len v := by omega
  have hB : ¬v.length < 12 + declared_len v := by omega
  unfold Chunk.try_from
  simp only [h0, if_false, h8, hA, hB]
  by_cases hc : crc32 ((type_field v).toList ++ payload_field v) = stored_crc v <;>
    simp [hc]

/-- C4 witness: the 12-byte buffer with length 0, type `"RuSt"` and
checksum 3565422908 = crc32("RuSt") passes the length condition, is
not a CRC mismatch, and parses to the corresponding record. -/
theorem c4_crc_verification_witness :
    12 + declared_len [0, 0, 0, 0, 82, 117, 83, 116, 212, 132, 9, 60] ≤
      ([0, 0, 0, 0, 82, 117, 83, 116, 212, 132, 9, 60] : List Nat).length ∧
    ((Chunk.try_from [0, 0, 0, 0, 82, 117, 83, 116, 212, 132, 9, 60] =
        .err "CRC comparison failed." ↔
      crc32 ((type_field [0, 0, 0, 0, 82, 117, 83, 116, 212, 132, 9, 60]).toList ++
          payload_field [0, 0, 0, 0, 82, 117, 83, 116, 212, 132, 9, 60]) ≠
        stored_crc [0, 0, 0, 0, 82, 117, 83, 116, 212, 132, 9, 60]) ∧
     (crc32 ((type_field [0, 0, 0, 0, 82, 117, 83, 116, 212, 132, 9, 60]).toList ++
          payload_field [0, 0, 0, 0, 82, 117, 83, 116, 212, 132, 9, 60]) =
        stored_crc [0, 0, 0, 0, 82, 117, 83, 116, 212, 132, 9, 60] →
      Chunk.try_from [0, 0, 0, 0, 82, 117, 83, 116, 212, 132, 9, 60] =
        .ok { length := declared_len [0, 0, 0, 0, 82, 117, 83, 116, 212, 132, 9, 60]
            , chunk_type := type_code_of (type_field [0, 0, 0, 0, 82, 117, 83, 116, 212, 132, 9, 60])
            , chunk_data := payload_field [0, 0, 0, 0, 82, 117, 83, 116, 212, 132, 9, 60]
            , crc := stored_crc [0, 0, 0, 0, 82, 117, 83, 116, 212, 132, 9, 60] })) :=
  ⟨by decide, c4_crc_verification _ (by decide)⟩

/-- C5.  Every `Chunk` value the source can produce — built by
`Chunk::new` from a payload whose length fits in a `u32`, or returned
by a successful `Chunk::try_from` — has its checksum equal to the CRC
of its type bytes concatenated with its payload, and its length field
equal to its payload length. -/
theorem c5_record_invariant (c : Chunk)
    (h : (∃ ct data, data.length < 2 ^ 32 ∧ c = Chunk.new ct data) ∨
         ∃ v, Chunk.try_from v = .ok c) :
    c.crc = crc32 (c.chunk_type.bytes.toList ++ c.chunk_data) ∧
    c.length = c.chunk_data.length := by
  rcases h with ⟨ct, data, hlen, rfl⟩ | ⟨v, hv⟩
  · exact ⟨rfl, Nat.mod_eq_of_lt hlen⟩
  · unfold Chunk.try_from at hv
    split_ifs at hv with h0 h8 hA hB hc
    obtain rfl := RResult.ok.inj hv
    push_neg at hc
    constructor
    · show stored_crc v = crc32 ((type_field v).toList ++ payload_field v)
      exact hc.symm
    · show declared_len v = (payload_field v).length
      have hd : (v.drop 8).length = v.length - 8 := List.length_drop 8 v
      simp only [payload_field, List.length_take, hd]
      omega

/-- Appending bytes does not change the decoded length field
(needs the first 4 bytes to lie in `v`). -/
theorem declared_len_append (v e : List Nat) (h : 4 ≤ v.length) :
    declared_len (v ++ e) = declared_len v := by
  unfold declared_len
  rw [List.getD_append _ _ _ _ (by omega), List.getD_append _ _ _ _ (by omega),
    List.getD_append _ _ _ _ (by omega), List.getD_append _ _ _ _ (by omega)]

/-- Appending bytes does not change the type-code field. -/
theorem type_field_append (v e : List Nat) (h : 8 ≤ v.length) :
    type_field (v ++ e) = type_field v := by
  unfold type_field
  rw [List.getD_append _ _ _ _ (by omega), List.getD_append _ _ _ _ (by omega),
    List.getD_append _ _ _ _ (by omega), List.getD_append _ _ _ _ (by omega)]

/-- Appending bytes does not change the extracted payload when the
payload lies entirely in `v`. -/
theorem payload_field_append (v e : List Nat)
    (h : 8 + declared_len v ≤ v.length) :
    payload_field (v ++ e) = payload_field v := by
  unfold payload_field
  rw [declared_len_append v e (by omega),
    List.drop_append_of_le_length (by omega),
    List.take_append_of_le_length (by simp [List.length_drop]; omega)]

/-- Appending bytes does not change the stored checksum when the
whole record lies in `v`. -/
theorem stored_crc_append (v e : List Nat)
    (h : 12 + declared_len v ≤ v.length) :
    stored_crc (v ++ e) = stored_crc v := by
  unfold stored_crc
  rw [declared_len_append v e (by omega),
    List.drop_append_of_le_length (by omega)]
  have hlen : (v.drop (8 + declared_len v)).length = v.length - (8 + declared_len v) :=
    List.length_drop _ v
  rw [List.getD_append _ _ _ _ (by omega), List.getD_append _ _ _ _ (by omega),
    List.getD_append _ _ _ _ (by omega), List.getD_append _ _ _ _ (by omega)]

/-- C10.  Trailing bytes are ignored: whenever parsing a buffer
succeeds with some record, parsing the same buffer with any extra
bytes appended also succeeds with exactly the same record. -/
theorem c10_trailing_ignored (v extra : List Nat) (c : Chunk)
    (h : Chunk.try_from v = .ok c) :
    Chunk.try_from (v ++ extra) = .ok c := by
  unfold Chunk.try_from at h ⊢
  split_ifs at h with h0 h8 hA hB hc
  obtain rfl := RResult.ok.inj h
  have hlen : (v ++ extra).length = v.length + extra.length := List.length_append v extra
  have e1 := declared_len_append v extra (by omega)
  have e2 := type_field_append v extra (by omega)
  have e3 := payload_field_append v extra (by omega)
  have e4 := stored_crc_append v extra (by omega)
  rw [e1, e2, e3, e4, hlen]
  rw [if_neg (by omega), if_neg (by omega), if_neg (by omega), if_neg (by omega),
    if_neg hc]

/-- C10 witness: the 12-byte zero-payload `"RuSt"` buffer parses to a
record, and the same buffer with `[9, 9, 9]` appended parses to the
same record. -/
theorem c10_trailing_ignored_witness :
    Chunk.try_from [0, 0, 0, 0, 82, 117, 83, 116, 212, 132, 9, 60] =
      .ok { length := 0, chunk_type := rust_type, chunk_data := [], crc := 3565422908 } ∧
    Chunk.try_from ([0, 0, 0, 0, 82, 117, 83, 116, 212, 132, 9, 60] ++ [9, 9, 9]) =
      .ok { length := 0, chunk_type := rust_type, chunk_data := [], crc := 3565422908 } :=
  ⟨by decide, c10_trailing_ignored _ _ _ (by decide)⟩

/-- C5 witness: the record built by `Chunk::new` from the `"RuSt"`
type and payload `[1, 2, 3]` satisfies the invariant. -/
theorem c5_record_invariant_witness :
    (Chunk.new rust_type [1, 2, 3]).crc =
      crc32 ((Chunk.new rust_type [1, 2, 3]).chunk_type.bytes.toList ++
        (Chunk.new rust_type [1, 2, 3]).chunk_data) ∧
    (Chunk.new rust_type [1, 2, 3]).length =
      (Chunk.new rust_type [1, 2, 3]).chunk_data.length :=
  c5_record_invariant _ (Or.inl ⟨rust_type, [1, 2, 3], by decide, rfl⟩)

end PngCryptex
